import Mathlib

/-!
Verification of the pLTE Band 41 RCA application against its specification.

The repository splits into a Next.js frontend (present under the frontend
directory) and a Python analytic engine (threshold classifier, series
aggregator, outlier detector, drift comparator) that is referenced by the
README and the spec but whose source files are not part of this snapshot.
Frontend behaviour is embedded directly from the TypeScript pages; the
analytic-engine behaviour is modelled from the spec, as marked on each
definition.
-/

namespace RCA

/-- Modelled from the spec: the six boolean evidence flags of the root-cause
decision procedure (section 4.2). The spec names five flag families, with
sinr_or_bler_fail split further into sinr_fail and bler_fail, so six booleans
drive the rules. The deciding code (engine rca.py) is absent from the
snapshot. -/
structure EvidenceFlags where
  s1_fail : Bool
  rrc_or_erab_fail : Bool
  prb_fail : Bool
  sinr_fail : Bool
  bler_fail : Bool
  paging_fail : Bool
deriving DecidableEq

/-- Modelled from the spec: the precedence-ordered rule table of section 4.2,
rules 1 through 9 in rule-index order, each a predicate over the evidence
flags paired with its root-cause label. The deciding code (engine rca.py) is
absent from the snapshot. -/
def rules : List ((EvidenceFlags → Bool) × String) :=
  [ (fun f => f.s1_fail && f.rrc_or_erab_fail, "Transport/TIMING Fault")
  , (fun f => f.s1_fail && f.prb_fail, "Microwave ACM Fade")
  , (fun f => f.sinr_fail && f.bler_fail && f.prb_fail, "RF Interference / Sector Overshoot")
  , (fun f => f.sinr_fail && f.bler_fail && !f.prb_fail, "TDD Frame Misalignment")
  , (fun f => f.prb_fail && f.rrc_or_erab_fail && !f.sinr_fail, "Congestion")
  , (fun f => f.sinr_fail && f.bler_fail, "RF Quality Degradation")
  , (fun f => f.rrc_or_erab_fail && !f.s1_fail && !f.prb_fail, "Parameter Mismatch")
  , (fun f => f.paging_fail && f.rrc_or_erab_fail, "New-Site Integration Issue")
  , (fun f => f.bler_fail && !f.sinr_fail, "CPE-Specific Issue") ]

/-- Modelled from the spec: the root-cause decision procedure evaluates the
rules in fixed rule-index order, the first matching rule wins, and when no
rule matches the label is the no-anomaly label (rule 10 of section 4.2). -/
def classify (f : EvidenceFlags) : String :=
  match rules.find? (fun r => r.1 f) with
  | some r => r.2
  | none => "No significant anomaly detected"

/-- C1: whenever s1_fail, rrc_or_erab_fail and prb_fail are all true, the
decision procedure selects the label Transport/TIMING Fault (rule 1) and
never Microwave ACM Fade (rule 2), for every assignment of the remaining
flags, because rules are tried in rule-index order and the first match
wins. -/
theorem C1_rule_precedence (sinr bler pg : Bool) :
    classify ⟨true, true, true, sinr, bler, pg⟩ = "Transport/TIMING Fault" ∧
    classify ⟨true, true, true, sinr, bler, pg⟩ ≠ "Microwave ACM Fade" := by
  revert sinr bler pg
  decide

/-- C4: rule 6 (RF Quality Degradation) is unreachable: for every assignment
of the evidence flags, some earlier rule (rule 3 when prb_fail holds, rule 4
when it does not) already covers sinr_fail together with bler_fail, so the
decision procedure never returns the RF Quality Degradation label. -/
theorem C4_rule6_unreachable (f : EvidenceFlags) :
    classify f ≠ "RF Quality Degradation" := by
  obtain ⟨s1, rrc, prb, sinr, bler, pg⟩ := f
  revert s1 rrc prb sinr bler pg
  decide

/-- The comparison direction of a threshold table entry (section 4.2): a
min entry gives a lower bound the KPI mean must reach, a max entry an upper
bound it must stay below. -/
inductive Comparison where
  | min
  | max
deriving DecidableEq

/-- The severity levels of the data model (section 3). -/
inductive Severity where
  | low
  | medium
  | high
deriving DecidableEq

/-- An Anomaly record of the data model (section 3): KPI name, violation
type, observed value, threshold value and severity. Values are modelled as
rationals. -/
structure Anomaly where
  kpi : String
  violation : String
  value : ℚ
  threshold : ℚ
  severity : Severity
deriving DecidableEq

/-- Modelled from the spec: whether a KPI mean fails its bound under the
given comparison direction (section 4.2). The deciding code (engine rca.py)
is absent from the snapshot. -/
def failsBound (cmp : Comparison) (bound mean : ℚ) : Bool :=
  match cmp with
  | Comparison.min => decide (mean < bound)
  | Comparison.max => decide (bound < mean)

/-- Modelled from the spec: severity of a failing KPI is high exactly when
the relative deviation of the mean from its bound strictly exceeds 20
percent, else medium (section 4.2). -/
def severityOf (mean bound : ℚ) : Severity :=
  if 1/5 < |mean - bound| / bound then Severity.high else Severity.medium

/-- Modelled from the spec: the Threshold Classifier evaluates one KPI mean
against its threshold table entry, producing an Anomaly exactly when the
mean fails its bound (section 4.2). The deciding code (engine rca.py) is
absent from the snapshot. -/
def evalKPI (kpi : String) (cmp : Comparison) (bound mean : ℚ) : Option Anomaly :=
  if failsBound cmp bound mean then
    some { kpi := kpi
         , violation :=
             match cmp with
             | Comparison.min => "below_threshold"
             | Comparison.max => "above_threshold"
         , value := mean
         , threshold := bound
         , severity := severityOf mean bound }
  else none

/-- C2: every Anomaly produced by the Threshold Classifier carries severity
high exactly when the relative deviation of the mean from its bound is
strictly greater than 20 percent and medium otherwise (so a deviation of
exactly 20 percent is medium), no produced Anomaly carries severity low, and
a KPI whose mean is within its bound produces no Anomaly at all. -/
theorem C2_severity_rule (kpi : String) (cmp : Comparison) (bound mean : ℚ) :
    (∀ a, evalKPI kpi cmp bound mean = some a →
        ((a.severity = Severity.high ↔ 1/5 < |mean - bound| / bound) ∧
          (a.severity = Severity.medium ↔ ¬ 1/5 < |mean - bound| / bound) ∧
          a.severity ≠ Severity.low)) ∧
    (failsBound cmp bound mean = false → evalKPI kpi cmp bound mean = none) := by
  constructor
  · intro a ha
    unfold evalKPI at ha
    split at ha
    · cases ha
      unfold severityOf
      by_cases hc : 1/5 < |mean - bound| / bound
      · rw [if_pos hc]
        exact ⟨by simpa using hc, by simpa using hc, by simp⟩
      · rw [if_neg hc]
        exact ⟨by simpa using hc, by simpa using hc, by simp⟩
    · exact absurd ha (by simp)
  · intro hf
    unfold evalKPI
    simp [hf]

/-- A concrete Anomaly used to witness the severity rule: the RRC setup
success rate KPI with lower bound 95 and observed mean 70, whose relative
deviation 25 / 95 exceeds 20 percent. -/
def rrcAnomaly70 : Anomaly :=
  { kpi := "RRC_Setup_Success_Rate"
  , violation := "below_threshold"
  , value := 70
  , threshold := 95
  , severity := Severity.high }

/-- Witness for C2 at a concrete input: the classifier applied to the RRC
setup success rate with bound 95 and mean 70 yields the high-severity
anomaly, and the severity rule holds there. -/
theorem C2_severity_rule_witness :
    (rrcAnomaly70.severity = Severity.high ↔ (1:ℚ)/5 < |(70:ℚ) - 95| / 95) ∧
    (rrcAnomaly70.severity = Severity.medium ↔ ¬ (1:ℚ)/5 < |(70:ℚ) - 95| / 95) ∧
    rrcAnomaly70.severity ≠ Severity.low :=
  (C2_severity_rule "RRC_Setup_Success_Rate" Comparison.min 95 70).1 rrcAnomaly70
    (by norm_num [evalKPI, failsBound, severityOf, rrcAnomaly70])

/-- The KPIStatistics aggregate of the data model (section 3), matching the
Evidence entry shape of the frontend rca page: mean, min, max and count are
always present, median and stdev are optional fields. -/
structure KPIStatistics where
  mean : ℚ
  min : ℚ
  max : ℚ
  median : Option ℚ
  stdev : Option ℚ
  count : ℕ
deriving DecidableEq

/-- Insert a value into an ascending-sorted list, keeping it sorted. -/
def insertSorted (a : ℚ) : List ℚ → List ℚ
  | [] => [a]
  | b :: bs => if a ≤ b then a :: b :: bs else b :: insertSorted a bs

/-- Insertion sort into ascending order, used to take the median. -/
def sortAsc (l : List ℚ) : List ℚ :=
  l.foldr insertSorted []

/-- The median of a list of samples: middle element of the sorted list when
the length is odd, average of the two middle elements when even. -/
def medianList (values : List ℚ) : ℚ :=
  let sorted := sortAsc values
  let n := values.length
  if n % 2 = 1 then sorted.getD (n / 2) 0
  else (sorted.getD (n / 2 - 1) 0 + sorted.getD (n / 2) 0) / 2

/-- The sample variance of a list of samples. The statistics library used by
the engine reports its square root as stdev; the square root of a rational
is not rational, so the model carries the variance — the claims only inspect
whether the stdev field is present, never its numeric value. -/
def sampleVariance (values : List ℚ) : ℚ :=
  let m := values.sum / values.length
  (values.map (fun v => (v - m) ^ 2)).sum / (values.length - 1 : ℕ)

/-- Modelled from the spec: the Series Aggregator computes the descriptive
statistics of one (site, KPI) group (sections 2 and 3). The aggregating code
(engine side) is absent from the snapshot. An empty group produces no
aggregate; stdev is present only when the group has more than one sample;
mean, min, max and median collapse to the single value for a one-sample
group. -/
def computeStats (values : List ℚ) : Option KPIStatistics :=
  match values with
  | [] => none
  | x :: xs =>
      some { mean := (x :: xs).sum / ((x :: xs).length : ℚ)
           , min := xs.foldl Min.min x
           , max := xs.foldl Max.max x
           , median := some (medianList (x :: xs))
           , stdev := if 1 < (x :: xs).length then some (sampleVariance (x :: xs)) else none
           , count := (x :: xs).length }

/-- C3 counterexample: the aggregate of the one-sample group with value 5
has count 1 yet a present median (equal to the sample), so the clause that
median is defined only when count exceeds 1 fails on the model — the claim
as stated is refuted at this concrete input. -/
theorem C3_count_one_median_present :
    (computeStats [5]).map (fun s => (s.count, s.median)) = some (1, some 5) := by
  norm_num [computeStats, medianList, sortAsc, insertSorted]

/-- C3 as amended: for every KPIStatistics aggregate computed from exactly
one sample, mean, min, max and median all equal that single sample value and
stdev is absent (not present as zero); stdev is defined only when count
exceeds 1, while median is defined for every nonempty group. -/
theorem C3_stats_count_one (vs : List ℚ) (s : KPIStatistics)
    (h : computeStats vs = some s) (h1 : s.count = 1) :
    vs = [s.mean] ∧ s.min = s.mean ∧ s.max = s.mean ∧
    s.median = some s.mean ∧ s.stdev = none := by
  match vs with
  | [] => simp [computeStats] at h
  | x :: xs =>
      simp only [computeStats, Option.some.injEq] at h
      have hcount : s.count = xs.length + 1 := by
        rw [← h]
        simp
      rw [h1] at hcount
      have hxs : xs = [] := by
        cases xs with
        | nil => rfl
        | cons y ys => simp at hcount
      subst hxs
      have hmean : s.mean = x := by
        rw [← h]
        simp [List.sum_cons]
      refine ⟨?_, ?_, ?_, ?_, ?_⟩ <;> rw [← h] <;> simp [hmean, ← h, medianList, sortAsc,
        insertSorted, List.sum_cons]

/-- Witness statistics for the amended C3: the aggregate of the one-sample
group with value 7. -/
def statsOf7 : KPIStatistics :=
  { mean := 7, min := 7, max := 7, median := some 7, stdev := none, count := 1 }

/-- Witness for the amended C3 at a concrete input: the group with the
single sample 7 yields an aggregate with count 1 whose mean, min, max and
median are all 7 and whose stdev is absent. -/
theorem C3_stats_count_one_witness :
    [(7:ℚ)] = [statsOf7.mean] ∧ statsOf7.min = statsOf7.mean ∧
    statsOf7.max = statsOf7.mean ∧ statsOf7.median = some statsOf7.mean ∧
    statsOf7.stdev = none :=
  C3_stats_count_one [7] statsOf7
    (by norm_num [computeStats, medianList, sortAsc, insertSorted, statsOf7]) rfl

/-- The Baseline entity of the data model (section 3): a persisted per-site
snapshot of per-KPI statistics together with the sample count of the run
that created it. -/
structure Baseline where
  site_id : String
  stats : List (String × KPIStatistics)
  sample_count : ℕ
deriving DecidableEq

/-- The DriftResult entity of the data model (section 3). -/
structure DriftResult where
  drift_score : ℚ
  parameters_of_interest : List String
deriving DecidableEq

/-- Look up the stored statistics of one KPI in a per-KPI table. -/
def lookupKPI (l : List (String × KPIStatistics)) (k : String) : Option KPIStatistics :=
  (l.find? (fun p => p.1 == k)).map Prod.snd

/-- Modelled from the spec: the per-KPI normalized deviation of section 4.4,
the absolute mean difference divided by the baseline stdev floored at
epsilon, or by the baseline mean when stdev is undefined. -/
def normDev (eps : ℚ) (cur base : KPIStatistics) : ℚ :=
  match base.stdev with
  | some sd => |cur.mean - base.mean| / max sd eps
  | none => |cur.mean - base.mean| / base.mean

/-- Clamp a rational into the unit interval. -/
def clamp01 (q : ℚ) : ℚ := max 0 (min 1 q)

/-- Modelled from the spec: the Drift Comparator of section 4.4. When no
Baseline is stored for the site it returns drift score 0 and persists a new
Baseline holding the current per-KPI aggregates; when a Baseline exists it
averages the per-KPI normalized deviations, clamps the average into the unit
interval, lists the KPIs whose deviation exceeds the significance cutoff,
and leaves the stored Baseline unchanged. The deciding code (ai
drift_detector.py) is absent from the snapshot. -/
def driftCompare (eps cutoff : ℚ) (stored : Option Baseline) (site : String)
    (current : List (String × KPIStatistics)) (sampleCount : ℕ) :
    DriftResult × Baseline :=
  match stored with
  | none =>
      ({ drift_score := 0, parameters_of_interest := [] },
       { site_id := site, stats := current, sample_count := sampleCount })
  | some b =>
      let devs := current.filterMap (fun p =>
        (lookupKPI b.stats p.1).map (fun bs => (p.1, normDev eps p.2 bs)))
      ({ drift_score := clamp01 ((devs.map Prod.snd).sum / (devs.length : ℚ))
       , parameters_of_interest := (devs.filter (fun d => cutoff < d.2)).map Prod.fst }, b)

/-- C5: on the first-ever analysis run for a site, when no Baseline is
stored, the Drift Comparator returns drift score 0 and persists a new
Baseline equal to the current run per-KPI aggregates, keyed by the site. -/
theorem C5_first_run (eps cutoff : ℚ) (site : String)
    (current : List (String × KPIStatistics)) (n : ℕ) :
    (driftCompare eps cutoff none site current n).1.drift_score = 0 ∧
    (driftCompare eps cutoff none site current n).2 =
      { site_id := site, stats := current, sample_count := n } :=
  ⟨rfl, rfl⟩

/-- The parts of the upload page component state touched by file selection:
the currently selected file, kept by its name, and the error message. From
frontend app upload page.tsx. -/
structure UploadState where
  file : Option String
  error : Option String
deriving DecidableEq

/-- The accepted-extension test of handleFileChange in the upload page: the
lowercased file name must end with .xml.gz, .gz, .zip or .xml. -/
def validFileName (name : String) : Bool :=
  let n := name.toLower
  n.endsWith (".xml.gz") || n.endsWith (".gz") || n.endsWith (".zip") || n.endsWith (".xml")

/-- handleFileChange of the upload page, on the path where a file was
selected: an accepted name is stored and the error cleared; any other name
sets the unsupported-file error and stores no file. -/
def handleFileChange (prev : UploadState) (selectedName : String) : UploadState :=
  if validFileName selectedName then
    { prev with file := some selectedName, error := none }
  else
    { prev with file := none
              , error := some ("Please select a .xml.gz, .gz, .zip, or .xml file") }

/-- The guard at the head of handleUpload in the upload page: the upload
request is built from the stored file and is only issued when one is
stored. -/
def uploadRequest (s : UploadState) : Option String :=
  match s.file with
  | none => none
  | some f => some f

/-- C6: for every selected file, handleFileChange retains the file and
clears the error exactly when the lowercased name ends with .xml.gz, .gz,
.zip or .xml; for any other name it sets the unsupported-file error message
and stores no file, so the upload request can only ever carry a file whose
name passed the extension test. -/
theorem C6_file_validation (prev : UploadState) (name : String) :
    ((handleFileChange prev name).file = some name ∧
        (handleFileChange prev name).error = none ↔ validFileName name = true) ∧
    (validFileName name = false →
      (handleFileChange prev name).error =
          some ("Please select a .xml.gz, .gz, .zip, or .xml file") ∧
        (handleFileChange prev name).file = none) ∧
    (∀ f, uploadRequest (handleFileChange prev name) = some f → validFileName f = true) := by
  unfold handleFileChange uploadRequest
  cases hv : validFileName name
  · simp [hv]
  · simp [hv]

/-- The anomaly-detection block of the RCA results consumed by the RCA page:
scores, flags, the total anomaly count and the flagged timestamps. From
frontend app rca page.tsx. -/
structure OutlierDisplay where
  scores : List ℚ
  flags : List Bool
  anomaly_count : ℕ
  anomaly_periods : List String
deriving DecidableEq

/-- The anomaly periods the RCA page renders: the slice of the first ten
entries of anomaly_periods, in their given order. -/
def renderedPeriods (r : OutlierDisplay) : List String :=
  r.anomaly_periods.take 10

/-- The plus-N-more marker of the RCA page: shown exactly when more than ten
periods exist, with N the number of entries past the first ten. -/
def moreMarker (r : OutlierDisplay) : Option ℕ :=
  if 10 < r.anomaly_periods.length then some (r.anomaly_periods.length - 10) else none

/-- The anomalous-period count headline of the RCA page: the anomaly_count
field displayed as given, not derived from the rendered slice. -/
def displayedAnomalyCount (r : OutlierDisplay) : ℕ :=
  r.anomaly_count

/-- C7: the RCA page renders at most the first ten anomaly periods in their
given order (appending the dropped tail recovers the full list), shows the
plus-N-more marker exactly when the list has more than ten entries with N
the surplus, and displays the full uncapped anomaly count. -/
theorem C7_display_cap (r : OutlierDisplay) :
    (renderedPeriods r).length ≤ 10 ∧
    renderedPeriods r ++ r.anomaly_periods.drop 10 = r.anomaly_periods ∧
    (∀ n, moreMarker r = some n ↔
        (10 < r.anomaly_periods.length ∧ n = r.anomaly_periods.length - 10)) ∧
    displayedAnomalyCount r = r.anomaly_count := by
  refine ⟨?_, List.take_append_drop 10 r.anomaly_periods, ?_, rfl⟩
  · simp [renderedPeriods]
  · intro n
    unfold moreMarker
    by_cases hl : 10 < r.anomaly_periods.length
    · rw [if_pos hl]
      simp [hl, eq_comm]
    · rw [if_neg hl]
      simp [hl]

/-- The drift significance message of the RCA page: the warning wording is
chosen exactly when drift_score is strictly greater than 0.3, the
within-normal wording otherwise. From frontend app rca page.tsx. -/
def driftMessage (driftScore : ℚ) : String :=
  if 3/10 < driftScore then "Significant drift detected"
  else "Parameters within normal range"

/-- The drift icon of the RCA page: the warning triangle is chosen exactly
when drift_score is strictly greater than 0.3, the green check otherwise. -/
def driftWarnIcon (driftScore : ℚ) : Bool :=
  decide (3/10 < driftScore)

/-- C9: the RCA page reports significant drift, with the warning icon,
exactly when drift_score is strictly greater than 0.3; every score less than
or equal to 0.3 — including exactly 0.3 — reports parameters within normal
range. -/
theorem C9_drift_cutoff (s : ℚ) :
    (driftMessage s = "Significant drift detected" ↔ 3/10 < s) ∧
    (driftMessage s = "Parameters within normal range" ↔ ¬ 3/10 < s) ∧
    (driftWarnIcon s = true ↔ 3/10 < s) ∧
    driftMessage (3/10) = "Parameters within normal range" := by
  unfold driftMessage driftWarnIcon
  by_cases hc : (3:ℚ)/10 < s
  · rw [if_pos hc]
    refine ⟨by simpa using hc, ?_, by simp [hc], by norm_num⟩
    constructor
    · intro he
      exact absurd he (by decide)
    · intro hn
      exact absurd hc hn
  · rw [if_neg hc]
    refine ⟨?_, by simpa using hc, by simp [hc], by norm_num⟩
    constructor
    · intro he
      exact absurd he.symm (by decide)
    · intro hgt
      exact absurd hgt hc

/-- One entry of the flat kpi_data list the dashboard consumes. From
frontend app dashboard page.tsx. -/
structure KPIData where
  timestamp : String
  site : String
  kpi : String
  value : ℚ
deriving DecidableEq

/-- The grouping step of the dashboard siteData reduce, projected at one
(site, KPI) pair: walking the kpi_data list in order and pushing each
matching value onto the end of the group. -/
def groupFold (data : List KPIData) (site kpi : String) : List ℚ :=
  data.foldl
    (fun acc e => if e.site = site ∧ e.kpi = kpi then acc ++ [e.value] else acc) []

/-- The siteSummary computation of the dashboard at one (site, KPI) pair:
the grouped values reduced with addition from zero, divided by the number of
grouped values. -/
def siteSummaryAt (data : List KPIData) (site kpi : String) : ℚ :=
  let values := groupFold data site kpi
  values.foldl (· + ·) 0 / (values.length : ℚ)

/-- The dashboard grouping, unfolded from any accumulator: the fold appends
exactly the values of the entries matching the (site, KPI) pair, in list
order. -/
theorem groupFold_go (site kpi : String) (data : List KPIData) (acc : List ℚ) :
    data.foldl
        (fun acc e => if e.site = site ∧ e.kpi = kpi then acc ++ [e.value] else acc) acc =
      acc ++ (data.filter
          (fun e => decide (e.site = site ∧ e.kpi = kpi))).map KPIData.value := by
  induction data generalizing acc with
  | nil => simp
  | cons e es ih =>
      by_cases h : e.site = site ∧ e.kpi = kpi
      · simp [h, ih, List.filter_cons]
      · simp [h, ih, List.filter_cons]

/-- C8: for every site and KPI appearing in the kpi_data list, the dashboard
site-comparison summary assigns to that pair the arithmetic mean of all
values recorded for that KPI at that site — their sum divided by their
count. -/
theorem C8_site_mean (data : List KPIData) (site kpi : String)
    (_h : ∃ e ∈ data, e.site = site ∧ e.kpi = kpi) :
    siteSummaryAt data site kpi =
      ((data.filter (fun e => decide (e.site = site ∧ e.kpi = kpi))).map KPIData.value).sum /
        (((data.filter
            (fun e => decide (e.site = site ∧ e.kpi = kpi))).map KPIData.value).length : ℚ) := by
  unfold siteSummaryAt groupFold
  rw [groupFold_go]
  simp [List.foldl_eq_foldr, List.sum_eq_foldr]

/-- Concrete kpi_data used to witness C8: two samples of the same KPI at the
same site. -/
def sampleKpiData : List KPIData :=
  [ { timestamp := "t1", site := "S1", kpi := "RRC_Setup_Success_Rate", value := 1 }
  , { timestamp := "t2", site := "S1", kpi := "RRC_Setup_Success_Rate", value := 2 } ]

/-- Witness for C8 at a concrete input: the two-sample list has an entry for
the pair, and the summary equals the filtered sum over the filtered count. -/
theorem C8_site_mean_witness :
    siteSummaryAt sampleKpiData "S1" "RRC_Setup_Success_Rate" =
      ((sampleKpiData.filter
          (fun e => decide (e.site = "S1" ∧ e.kpi = "RRC_Setup_Success_Rate"))).map
        KPIData.value).sum /
        (((sampleKpiData.filter
            (fun e => decide (e.site = "S1" ∧ e.kpi = "RRC_Setup_Success_Rate"))).map
          KPIData.value).length : ℚ) :=
  C8_site_mean sampleKpiData "S1" "RRC_Setup_Success_Rate"
    ⟨{ timestamp := "t1", site := "S1", kpi := "RRC_Setup_Success_Rate", value := 1 },
      by simp [sampleKpiData], rfl, rfl⟩

/-- The two session-storage keys the ask-ai page reads. From the ask-ai page
component. -/
structure SessionStore where
  rcaResults : Option String
  kpiData : Option String
deriving DecidableEq

/-- The parts of the ask-ai page component state touched by handleSubmit:
the displayed answer and confidence, the error message, and the loading
flag. -/
structure AskState where
  answer : Option String
  confidence : Option ℚ
  error : Option String
  loading : Bool
deriving DecidableEq

/-- The hasData flag of the ask-ai page: both the rcaResults and the kpiData
session entries are present. -/
def hasData (store : SessionStore) : Bool :=
  store.rcaResults.isSome && store.kpiData.isSome

/-- handleSubmit of the ask-ai page, up to the point where the request is
issued: a blank question or missing session data sets the matching error and
sends nothing; otherwise the displayed answer, confidence and error are
cleared, loading starts, and the question is posted. The second component is
the question carried by the posted request, present exactly when a request
is issued. -/
def handleSubmit (store : SessionStore) (question : String) (prev : AskState) :
    AskState × Option String :=
  if question.trim.isEmpty then
    ({ prev with error := some ("Please enter a question") }, none)
  else if !hasData store then
    ({ prev with error := some ("Please upload and analyze a PM file first") }, none)
  else
    ({ answer := none, confidence := none, error := none, loading := true }, some question)

/-- C10: the ask-ai page posts the question exactly when it is non-blank
after trimming and both the rcaResults and the kpiData session entries are
present; in every other case it sets an error message, sends no request, and
leaves the previously displayed answer and confidence unchanged. -/
theorem C10_ask_guard (store : SessionStore) (q : String) (prev : AskState) :
    ((handleSubmit store q prev).2.isSome = true ↔
        (q.trim.isEmpty = false ∧ store.rcaResults.isSome = true ∧
          store.kpiData.isSome = true)) ∧
    ((handleSubmit store q prev).2 = none →
      (handleSubmit store q prev).1.error.isSome = true ∧
        (handleSubmit store q prev).1.answer = prev.answer ∧
        (handleSubmit store q prev).1.confidence = prev.confidence) := by
  unfold handleSubmit hasData
  by_cases hq : q.trim.isEmpty
  · simp [hq]
  · by_cases hr : store.rcaResults.isSome
    · by_cases hk : store.kpiData.isSome
      · simp [hq, hr, hk]
      · simp [hq, hr, hk]
    · simp [hq, hr]

end RCA
